import Mathlib

/-!
Shallow embedding of `pyconnectome/utils/filetools.py`.

Python strings are lists of characters, the filesystem is the list of
existing file paths, exceptions are an explicit error type, and each effectful
function returns its Python value inside `Except` together with a record of
the observable effects the claims speak about (subprocess invocations,
temporary-directory lifecycle, data written to the output file).  External
collaborators (the VTK reader, `nibabel`, the subprocess exit statuses, the
`glob` results) are passed in as explicit parameters, since the source treats
them as black boxes.
-/

namespace FileTools

/-- Python strings, modelled as lists of characters. -/
abbrev Str := List Char

/-- A Lean string literal, as the model string type. -/
def str (s : String) : Str := s.toList

/-- Python `s.endswith(suffix)`. -/
def py_endswith (s suff : Str) : Bool := suff.isSuffixOf s

/-- `os.path.isfile`: membership of the path in the filesystem. -/
def os_path_isfile (fs : List Str) (p : Str) : Bool := fs.contains p

/-- `os.path.basename` (POSIX): the component after the last slash. -/
def os_path_basename (p : Str) : Str :=
  (p.reverse.takeWhile (fun c => c ≠ '/')).reverse

/-- `os.path.dirname` (POSIX): everything up to the last slash, with trailing
slashes stripped unless the head consists only of slashes. -/
def os_path_dirname (p : Str) : Str :=
  let head := (p.reverse.dropWhile (fun c => c ≠ '/')).reverse
  if head ≠ [] ∧ head.any (fun c => c ≠ '/') then
    (head.reverse.dropWhile (fun c => c = '/')).reverse
  else head

/-- `os.path.join` of two components (POSIX). -/
def os_path_join (a b : Str) : Str :=
  if b.head? = some '/' then b
  else if a = [] then b
  else if a.getLast? = some '/' then a ++ b
  else a ++ '/' :: b

/-- Python `s.split(".")[0]`: the part of `s` before the first dot. -/
def py_split_dot_head (s : Str) : Str := s.takeWhile (fun c => c ≠ '.')

/-- Python `"%i" % n` / `"{0}".format(n)` on an integer. -/
def py_format_int (n : ℤ) : Str := (toString n).toList

/-- Python `"{0}".format(n)` on a natural number. -/
def py_format_nat (n : ℕ) : Str := (toString n).toList

/-- The exceptions the module can raise: `ValueError` on a missing input,
`IndexError` from `[0]` on an empty `glob` result, `CalledProcessError` from
`subprocess.check_call` on a non-zero exit status, and any exception escaping
the delegated `tractconverter` conversion. -/
inductive PyError
  | valueError (msg : Str)
  | indexError
  | calledProcessError (cmd : List Str)
  | conversionError
deriving DecidableEq

/-- The literal `".tck"`. -/
def tckExt : Str := str ".tck"

/-- The `.tck`-suffix step shared by both converters:
`if not path.endswith(".tck"): path += ".tck"`. -/
def addTckExt (path : Str) : Str :=
  if ! py_endswith path tckExt then path ++ tckExt else path

/-- Result of `convert_connectomist_trk_fibers_to_tck`: the Python value (or
the exception), and the temporary-directory lifecycle and conversion events
observed during the call. -/
structure TrkConvertResult where
  ret : Except PyError Str
  tempdir_created : Bool
  tempdir_removed : Bool
  converter_invoked : Bool

/-- `convert_connectomist_trk_fibers_to_tck(dwi, trk_tractogram,
tck_tractogram, tempdir)`.  The source checks that `dwi` and `trk_tractogram`
exist (raising `ValueError` on the first missing one), creates a temporary
directory with `tempfile.mkdtemp`, rewrites the TRK header to `LPI` order and
saves it to the scratch file, appends the `.tck` suffix if absent, invokes the
delegated `tractconverter` conversion, then removes the temporary directory
with `shutil.rmtree` and returns the output path.  There is no
`try`/`finally`: an exception raised by the delegated conversion (modelled by
`convert_ok = false`) propagates and the `rmtree` statement is never reached.
The nibabel load/header-rewrite/save of the intermediate tractogram carries no
data the claims mention and is left implicit. -/
def convert_connectomist_trk_fibers_to_tck (fs : List Str)
    (dwi trk_tractogram tck_tractogram : Str) (convert_ok : Bool) :
    TrkConvertResult :=
  if ! os_path_isfile fs dwi then
    { ret := .error (.valueError (str "File does not exist: " ++ dwi)),
      tempdir_created := false, tempdir_removed := false,
      converter_invoked := false }
  else if ! os_path_isfile fs trk_tractogram then
    { ret := .error (.valueError (str "File does not exist: " ++
        trk_tractogram)),
      tempdir_created := false, tempdir_removed := false,
      converter_invoked := false }
  else
    let tck := addTckExt tck_tractogram
    if convert_ok then
      { ret := .ok tck, tempdir_created := true, tempdir_removed := true,
        converter_invoked := true }
    else
      { ret := .error .conversionError, tempdir_created := true,
        tempdir_removed := false, converter_invoked := true }

/-- A 3D point. -/
abbrev Point := ℤ × ℤ × ℤ

/-- VTK polydata: an ordered list of cells, each an ordered list of points.
`polydata.GetCell(i).GetPoints().GetData()` is cell lookup. -/
structure PolyData where
  cells : List (List Point)

/-- `vtk_to_numpy` on a cell's point data: the cell's point array. -/
def vtk_to_numpy (vtk_pts : List Point) : List Point := vtk_pts

/-- `numpy.array(fiber_pts)`: the defensive copy of a fiber's point array. -/
def numpy_array (fiber_pts : List Point) : List Point := fiber_pts.map id

/-- `numpy.diag([-1, -1, 1, 1])`: the LPS-to-RAS affine built in
`convert_mitk_vtk_fibers_to_tck`. -/
def lps_to_ras : Matrix (Fin 4) (Fin 4) ℤ := Matrix.diagonal ![-1, -1, 1, 1]

/-- Apply a 4x4 affine to a 3D point via homogeneous coordinates. -/
def applyAffine (A : Matrix (Fin 4) (Fin 4) ℤ) (p : Point) : Point :=
  let v : Fin 4 → ℤ := ![p.1, p.2.1, p.2.2, 1]
  let w := A.mulVec v
  (w 0, w 1, w 2)

/-- `nibabel.streamlines.Tractogram(streamlines, affine_to_rasmm)`. -/
structure Tractogram where
  streamlines : List (List Point)
  affine_to_rasmm : Matrix (Fin 4) (Fin 4) ℤ

/-- Result of `convert_mitk_vtk_fibers_to_tck`: the returned output path and
the tractogram serialized into the TCK file. -/
structure VtkConvertResult where
  tck_path : Str
  tractogram : Tractogram

/-- `convert_mitk_vtk_fibers_to_tck(vtk_tractogram, tck_tractogram)`.  The
polydata read from the input file is an explicit parameter.  The source raises
`ValueError` if the input path is missing, collects for `i` in
`range(GetNumberOfCells())` a defensive `numpy.array` copy of cell `i`'s point
array, builds the tractogram with the fixed `lps_to_ras` affine, appends the
`.tck` suffix if absent, and saves the tractogram to the output path. -/
def convert_mitk_vtk_fibers_to_tck (fs : List Str) (vtk_tractogram : Str)
    (polydata : PolyData) (tck_tractogram : Str) :
    Except PyError VtkConvertResult :=
  if ! os_path_isfile fs vtk_tractogram then
    .error (.valueError (str "File does not exist: " ++ vtk_tractogram))
  else
    let nb_fibers := polydata.cells.length
    let fibers := (List.range nb_fibers).map fun i =>
      numpy_array (vtk_to_numpy (polydata.cells.getD i []))
    let tractogram : Tractogram :=
      { streamlines := fibers, affine_to_rasmm := lps_to_ras }
    let out := addTckExt tck_tractogram
    .ok { tck_path := out, tractogram := tractogram }

/-- `cmd_1` of `mrtrix_extract_b0s_and_mean_b0`: the `dwiextract` call. -/
def mrtrix_cmd_1 (dwi b0s : Str) (nb_threads : ℤ) : List Str :=
  [str "dwiextract", str "-bzero", dwi, b0s,
   str "-nthreads", py_format_int nb_threads, str "-failonwarn"]

/-- `cmd_2` of `mrtrix_extract_b0s_and_mean_b0`: the `mrmath` call. -/
def mrtrix_cmd_2 (b0s mean_b0 : Str) (nb_threads : ℤ) : List Str :=
  [str "mrmath", b0s, str "mean", mean_b0, str "-axis", str "3",
   str "-nthreads", py_format_int nb_threads, str "-failonwarn"]

/-- Result of `mrtrix_extract_b0s_and_mean_b0`: the Python value — `none`
models Python `None`, a `some` would model a returned path string — and the
list of subprocess invocations, in order. -/
structure MrtrixResult where
  ret : Except PyError (Option Str)
  calls : List (List Str)

/-- `mrtrix_extract_b0s_and_mean_b0(dwi, b0s, mean_b0, nb_threads)`.  `run`
gives each command's exit status (`true` = exit 0); `subprocess.check_call`
raises `CalledProcessError` on a non-zero status, so a failing `cmd_1` ends
the call before `cmd_2` is built or issued.  The function body has no
`return` statement, so the Python value on success is `None`. -/
def mrtrix_extract_b0s_and_mean_b0 (dwi b0s mean_b0 : Str) (nb_threads : ℤ)
    (run : List Str → Bool) : MrtrixResult :=
  let cmd_1 := mrtrix_cmd_1 dwi b0s nb_threads
  if run cmd_1 then
    let cmd_2 := mrtrix_cmd_2 b0s mean_b0 nb_threads
    if run cmd_2 then
      { ret := .ok none, calls := [cmd_1, cmd_2] }
    else
      { ret := .error (.calledProcessError cmd_2), calls := [cmd_1, cmd_2] }
  else
    { ret := .error (.calledProcessError cmd_1), calls := [cmd_1] }

/-- A 3D voxel array (nested lists, innermost = last axis). -/
abbrev Arr3 := List (List (List ℤ))

/-- A 4D voxel array (nested lists, innermost = last axis). -/
abbrev Arr4 := List (List (List (List ℤ)))

/-- `image.get_data()[..., index]`: indexing the last axis of a 4D array.
Defined when `index` is in range on every innermost row; an out-of-range
index raises the underlying array error, modelled as `none`. -/
def np_index_last (a : Arr4) (index : ℕ) : Option Arr3 :=
  if a.all fun p => p.all fun q => q.all fun r => decide (index < r.length) then
    some (a.map fun p => p.map fun q => q.map fun r => r.getD index 0)
  else none

/-- A loaded NIfTI image: voxel data and affine (`get_data`/`get_affine`). -/
structure Nifti1Image where
  data : Arr4
  affine : Matrix (Fin 4) (Fin 4) ℤ

/-- Result of `extract_image`: returned path, and the array and affine of the
`Nifti1Image` written to that path. -/
structure ExtractImageResult where
  out_file : Str
  out_data : Arr3
  out_affine : Matrix (Fin 4) (Fin 4) ℤ

/-- `extract_image(in_file, index, out_file)`.  The image loaded from
`in_file` is an explicit parameter.  The source derives
`extract{index}_{basename}.nii.gz` in the input's directory when `out_file`
is `None`, then slices the data at `index` along the last axis and writes a
new image with the original affine to the output path. -/
def extract_image (in_file : Str) (index : ℕ) (image : Nifti1Image)
    (out_file : Option Str) : Option ExtractImageResult :=
  let dirname := os_path_dirname in_file
  let basename := py_split_dot_head (os_path_basename in_file)
  let out := match out_file with
    | none => os_path_join dirname
        (str "extract" ++ py_format_nat index ++ str "_" ++ basename ++
         str ".nii.gz")
    | some o => o
  match np_index_last image.data index with
  | some extracted_array =>
      some { out_file := out, out_data := extracted_array,
             out_affine := image.affine }
  | none => none

/-- Result of the two FSL wrappers: the Python value (or the exception) and
the external commands invoked, in order. -/
structure FslToolResult where
  ret : Except PyError Str
  calls : List (List Str)

/-- `fslreorient2std(input_image, output_image, fslconfig)`.  `glob_fn` gives
the `glob.glob` result for a pattern.  The source raises `ValueError` before
any external call if the input is missing, invokes the `fslreorient2std`
command through `FSLWrapper`, then returns `glob.glob(output_image + "*")[0]`
— `[0]` on an empty list raises `IndexError`. -/
def fslreorient2std (fs : List Str) (input_image output_image : Str)
    (glob_fn : Str → List Str) : FslToolResult :=
  if ! os_path_isfile fs input_image then
    { ret := .error (.valueError (input_image ++
        str " is not a valid input file.")),
      calls := [] }
  else
    let cmd := [str "fslreorient2std", input_image, output_image]
    match glob_fn (output_image ++ str "*") with
    | [] => { ret := .error .indexError, calls := [cmd] }
    | p :: _ => { ret := .ok p, calls := [cmd] }

/-- `apply_mask(input_file, output_fileroot, mask_file, fslconfig)`.  The
source raises `ValueError` before any external call on the first missing one
of `input_file` and `mask_file`, invokes `fslmaths input -mas mask root`
through `FSLWrapper`, then returns `glob.glob(output_fileroot + ".*")[0]` —
`[0]` on an empty list raises `IndexError`. -/
def apply_mask (fs : List Str) (input_file output_fileroot mask_file : Str)
    (glob_fn : Str → List Str) : FslToolResult :=
  if ! os_path_isfile fs input_file then
    { ret := .error (.valueError (input_file ++
        str " is not a valid input file.")),
      calls := [] }
  else if ! os_path_isfile fs mask_file then
    { ret := .error (.valueError (mask_file ++
        str " is not a valid input file.")),
      calls := [] }
  else
    let cmd := [str "fslmaths", input_file, str "-mas", mask_file,
                output_fileroot]
    match glob_fn (output_fileroot ++ str ".*") with
    | [] => { ret := .error .indexError, calls := [cmd] }
    | p :: _ => { ret := .ok p, calls := [cmd] }

/-- Shape predicate for a 4D array: `(X, Y, Z, T)`. -/
def hasShape4 (a : Arr4) (X Y Z T : ℕ) : Prop :=
  a.length = X ∧ ∀ p ∈ a, p.length = Y ∧ ∀ q ∈ p, q.length = Z ∧
    ∀ r ∈ q, r.length = T

/-- Shape predicate for a 3D array: `(X, Y, Z)`. -/
def hasShape3 (a : Arr3) (X Y Z : ℕ) : Prop :=
  a.length = X ∧ ∀ p ∈ a, p.length = Y ∧ ∀ q ∈ p, q.length = Z

/-- Element lookup in a 3D array (0 outside the array). -/
def at3 (a : Arr3) (x y z : ℕ) : ℤ := ((a.getD x []).getD y []).getD z 0

/-- Element lookup in a 4D array (0 outside the array). -/
def at4 (a : Arr4) (x y z t : ℕ) : ℤ :=
  (((a.getD x []).getD y []).getD z []).getD t 0

instance (a : Arr4) (X Y Z T : ℕ) : Decidable (hasShape4 a X Y Z T) := by
  unfold hasShape4
  infer_instance

instance (a : Arr3) (X Y Z : ℕ) : Decidable (hasShape3 a X Y Z) := by
  unfold hasShape3
  infer_instance

/-! ### Helper lemmas -/

theorem addTckExt_of_endswith (path : Str)
    (h : py_endswith path tckExt = true) : addTckExt path = path := by
  simp [addTckExt, h]

theorem addTckExt_of_not_endswith (path : Str)
    (h : py_endswith path tckExt = false) :
    addTckExt path = path ++ tckExt := by
  simp [addTckExt, h]

theorem endswith_tck_append (s : Str) :
    py_endswith (s ++ tckExt) tckExt = true := by
  simp [py_endswith]

theorem addTckExt_idem (s : Str) :
    addTckExt (addTckExt s) = addTckExt s := by
  by_cases h : py_endswith s tckExt = true
  · rw [addTckExt_of_endswith s h, addTckExt_of_endswith s h]
  · rw [addTckExt_of_not_endswith s (Bool.eq_false_iff.mpr h),
        addTckExt_of_endswith _ (endswith_tck_append s)]

theorem applyAffine_lps_to_ras (x y z : ℤ) :
    applyAffine lps_to_ras (x, y, z) = (-x, -y, z) := by
  simp [applyAffine, lps_to_ras, Matrix.mulVec_diagonal]

theorem range_map_getD (l : List (List Point)) :
    (List.range l.length).map (fun i => l.getD i []) = l := by
  apply List.ext_getElem
  · simp
  · intro i h1 h2
    simp [List.getD_eq_getElem?_getD, List.getElem?_eq_getElem h2]

theorem convert_mitk_vtk_eq_ok (fs : List Str) (vtk_tractogram : Str)
    (polydata : PolyData) (tck_tractogram : Str)
    (h : os_path_isfile fs vtk_tractogram = true) :
    convert_mitk_vtk_fibers_to_tck fs vtk_tractogram polydata tck_tractogram =
      .ok { tck_path := addTckExt tck_tractogram,
            tractogram := { streamlines := polydata.cells,
                            affine_to_rasmm := lps_to_ras } } := by
  have hs : ((List.range polydata.cells.length).map fun i =>
      numpy_array (vtk_to_numpy (polydata.cells.getD i []))) =
      polydata.cells := by
    simpa [numpy_array, vtk_to_numpy] using range_map_getD polydata.cells
  unfold convert_mitk_vtk_fibers_to_tck
  simp [h]
  simpa using hs

theorem getD_map_eq {α β : Type*} (f : α → β) (d : α) (e : β) (hf : f d = e)
    (l : List α) (n : ℕ) : (l.map f).getD n e = f (l.getD n d) := by
  induction l generalizing n with
  | nil => simp [hf]
  | cons a l ih =>
    cases n with
    | zero => simp
    | succ n => simpa using ih n

theorem at3_slice (a : Arr4) (index x y z : ℕ) :
    at3 (a.map fun p => p.map fun q => q.map fun r => r.getD index 0) x y z =
      at4 a x y z index := by
  have h1 := getD_map_eq
    (fun p : List (List (List ℤ)) =>
      p.map fun q => q.map fun r => r.getD index 0) [] [] rfl a x
  have h2 := getD_map_eq
    (fun q : List (List ℤ) => q.map fun r => r.getD index 0) [] [] rfl
    (a.getD x []) y
  have h3 := getD_map_eq (fun r : List ℤ => r.getD index 0) [] 0 rfl
    ((a.getD x []).getD y []) z
  unfold at3 at4
  simp only [h1, h2, h3]

theorem np_index_last_of_shape (a : Arr4) (X Y Z T index : ℕ)
    (hsh : hasShape4 a X Y Z T) (hi : index < T) :
    np_index_last a index =
      some (a.map fun p => p.map fun q => q.map fun r => r.getD index 0) := by
  unfold np_index_last
  have hall : (a.all fun p => p.all fun q => q.all fun r =>
      decide (index < r.length)) = true := by
    simp only [List.all_eq_true, decide_eq_true_eq]
    intro p hp q hq r hr
    have := ((hsh.2 p hp).2 q hq).2 r hr
    omega
  simp [hall]

theorem hasShape3_slice (a : Arr4) (X Y Z T index : ℕ)
    (hsh : hasShape4 a X Y Z T) :
    hasShape3 (a.map fun p => p.map fun q => q.map fun r => r.getD index 0)
      X Y Z := by
  obtain ⟨hlen, hrest⟩ := hsh
  refine ⟨by simpa using hlen, ?_⟩
  intro p hp
  simp only [List.mem_map] at hp
  obtain ⟨p0, hp0, rfl⟩ := hp
  obtain ⟨hplen, hq⟩ := hrest p0 hp0
  refine ⟨by simpa using hplen, ?_⟩
  intro q hq1
  simp only [List.mem_map] at hq1
  obtain ⟨q0, hq0, rfl⟩ := hq1
  obtain ⟨hqlen, _⟩ := hq q0 hq0
  simpa using hqlen

/-! ### Claims -/

/-- C1: the affine attached to the tractogram built by
`convert_mitk_vtk_fibers_to_tck` is the fixed diagonal matrix
`diag(-1, -1, 1, 1)`, so it maps every world-coordinate point `(x, y, z)` of
the LPS input to `(-x, -y, z)` in the RAS-tagged output. -/
theorem vtk_affine_is_lps_to_ras (fs : List Str) (vtk_tractogram : Str)
    (polydata : PolyData) (tck_tractogram : Str) (res : VtkConvertResult)
    (h : convert_mitk_vtk_fibers_to_tck fs vtk_tractogram polydata
      tck_tractogram = .ok res) :
    res.tractogram.affine_to_rasmm = Matrix.diagonal ![-1, -1, 1, 1] ∧
    ∀ x y z : ℤ,
      applyAffine res.tractogram.affine_to_rasmm (x, y, z) = (-x, -y, z) := by
  unfold convert_mitk_vtk_fibers_to_tck at h
  split at h
  · cases h
  · cases h
    exact ⟨rfl, fun x y z => applyAffine_lps_to_ras x y z⟩

/-- Witness for C1: a single-cell polydata with point `(1, 2, 3)` yields a
tractogram whose affine applies to `(-1, -2, 3)`. -/
theorem vtk_affine_is_lps_to_ras_witness :
    (Tractogram.mk [[((1 : ℤ), (2 : ℤ), (3 : ℤ))]]
      lps_to_ras).affine_to_rasmm = Matrix.diagonal ![-1, -1, 1, 1] ∧
    applyAffine (Tractogram.mk [[((1 : ℤ), (2 : ℤ), (3 : ℤ))]]
      lps_to_ras).affine_to_rasmm (1, 2, 3) = (-1, -2, 3) :=
  let h := vtk_affine_is_lps_to_ras [str "f.fib"] (str "f.fib")
    ⟨[[(1, 2, 3)]]⟩ (str "out")
    ⟨str "out.tck", Tractogram.mk [[(1, 2, 3)]] lps_to_ras⟩ rfl
  ⟨h.1, h.2 1 2 3⟩

/-- C2: for a polydata input with `K` cells, the tractogram built by
`convert_mitk_vtk_fibers_to_tck` has exactly `K` fibers, and for every
`i < K` the `i`-th fiber equals the `i`-th cell's point array value for
value (the defensive copy), in particular with the same point count. -/
theorem vtk_fiber_count_and_points_preserved (fs : List Str)
    (vtk_tractogram : Str) (polydata : PolyData) (tck_tractogram : Str)
    (res : VtkConvertResult)
    (h : convert_mitk_vtk_fibers_to_tck fs vtk_tractogram polydata
      tck_tractogram = .ok res) :
    res.tractogram.streamlines.length = polydata.cells.length ∧
    ∀ i, i < polydata.cells.length →
      res.tractogram.streamlines.getD i [] = polydata.cells.getD i [] ∧
      (res.tractogram.streamlines.getD i []).length =
        (polydata.cells.getD i []).length := by
  have hfile : os_path_isfile fs vtk_tractogram = true := by
    by_contra hc
    rw [convert_mitk_vtk_fibers_to_tck] at h
    simp [Bool.eq_false_iff.mpr hc] at h
  rw [convert_mitk_vtk_eq_ok fs vtk_tractogram polydata tck_tractogram hfile]
    at h
  cases h
  exact ⟨rfl, fun i _ => ⟨rfl, rfl⟩⟩

/-- Witness for C2: a two-cell polydata yields two fibers with the cells'
exact point arrays. -/
theorem vtk_fiber_count_and_points_preserved_witness :
    (Tractogram.mk [[((1 : ℤ), (2 : ℤ), (3 : ℤ))], [(4, 5, 6), (7, 8, 9)]]
      lps_to_ras).streamlines.length =
      ([[((1 : ℤ), (2 : ℤ), (3 : ℤ))], [(4, 5, 6), (7, 8, 9)]] :
        List (List Point)).length ∧
    (Tractogram.mk [[((1 : ℤ), (2 : ℤ), (3 : ℤ))], [(4, 5, 6), (7, 8, 9)]]
      lps_to_ras).streamlines.getD 1 [] =
      ([[((1 : ℤ), (2 : ℤ), (3 : ℤ))], [(4, 5, 6), (7, 8, 9)]] :
        List (List Point)).getD 1 [] :=
  let h := vtk_fiber_count_and_points_preserved [str "f.fib"] (str "f.fib")
    ⟨[[(1, 2, 3)], [(4, 5, 6), (7, 8, 9)]]⟩ (str "out")
    ⟨str "out.tck",
     Tractogram.mk [[(1, 2, 3)], [(4, 5, 6), (7, 8, 9)]] lps_to_ras⟩ rfl
  ⟨h.1, (h.2 1 (by decide)).1⟩

/-- C5: both converters return the output path with the `.tck` suffix
appended exactly once — the path is unchanged when it already ends in
`.tck`, otherwise exactly one `.tck` is appended — and the suffix step is
idempotent. -/
theorem tck_suffix_appended_exactly_once (s : Str) (fs : List Str)
    (dwi trk_tractogram vtk_tractogram tck_tractogram : Str)
    (polydata : PolyData) (convert_ok : Bool)
    (hdwi : os_path_isfile fs dwi = true)
    (htrk : os_path_isfile fs trk_tractogram = true)
    (hvtk : os_path_isfile fs vtk_tractogram = true)
    (hok : convert_ok = true) :
    (convert_connectomist_trk_fibers_to_tck fs dwi trk_tractogram
      tck_tractogram convert_ok).ret = .ok (addTckExt tck_tractogram) ∧
    (∃ r, convert_mitk_vtk_fibers_to_tck fs vtk_tractogram polydata
      tck_tractogram = .ok r ∧ r.tck_path = addTckExt tck_tractogram) ∧
    (py_endswith tck_tractogram tckExt = true →
      addTckExt tck_tractogram = tck_tractogram) ∧
    (py_endswith tck_tractogram tckExt = false →
      addTckExt tck_tractogram = tck_tractogram ++ tckExt) ∧
    addTckExt (addTckExt s) = addTckExt s := by
  subst hok
  refine ⟨?_, ?_, addTckExt_of_endswith tck_tractogram,
    addTckExt_of_not_endswith tck_tractogram, addTckExt_idem s⟩
  · simp [convert_connectomist_trk_fibers_to_tck, hdwi, htrk]
  · exact ⟨_,
      convert_mitk_vtk_eq_ok fs vtk_tractogram polydata tck_tractogram hvtk,
      rfl⟩

/-- Witness for C5 at concrete paths: output `"out"` becomes `"out.tck"`. -/
theorem tck_suffix_appended_exactly_once_witness :
    (convert_connectomist_trk_fibers_to_tck
      [str "d.nii", str "t.trk", str "v.fib"] (str "d.nii") (str "t.trk")
      (str "out") true).ret = .ok (addTckExt (str "out")) ∧
    (∃ r, convert_mitk_vtk_fibers_to_tck
      [str "d.nii", str "t.trk", str "v.fib"] (str "v.fib") ⟨[]⟩
      (str "out") = .ok r ∧ r.tck_path = addTckExt (str "out")) ∧
    (py_endswith (str "out") tckExt = true →
      addTckExt (str "out") = str "out") ∧
    (py_endswith (str "out") tckExt = false →
      addTckExt (str "out") = str "out" ++ tckExt) ∧
    addTckExt (addTckExt (str "a.tck")) = addTckExt (str "a.tck") :=
  tck_suffix_appended_exactly_once (str "a.tck")
    [str "d.nii", str "t.trk", str "v.fib"] (str "d.nii") (str "t.trk")
    (str "v.fib") (str "out") ⟨[]⟩ true rfl rfl rfl rfl

/-- C3: for a 4D input of shape `(X, Y, Z, T)` and a valid index
`i ∈ [0, T)`, `extract_image` writes the 3D array given by slicing the
input at `i` along the last axis, with the affine unchanged. -/
theorem extract_image_slices_last_axis (in_file : Str) (index : ℕ)
    (image : Nifti1Image) (out_file : Option Str) (X Y Z T : ℕ)
    (hsh : hasShape4 image.data X Y Z T) (hi : index < T) :
    ∃ res, extract_image in_file index image out_file = some res ∧
      res.out_affine = image.affine ∧
      hasShape3 res.out_data X Y Z ∧
      ∀ x y z, at3 res.out_data x y z = at4 image.data x y z index := by
  unfold extract_image
  rw [np_index_last_of_shape image.data X Y Z T index hsh hi]
  exact ⟨_, rfl, rfl, hasShape3_slice image.data X Y Z T index hsh,
    fun x y z => at3_slice image.data index x y z⟩

/-- Witness for C3: slicing a `(1, 1, 1, 2)` volume at index 1.  -/
theorem extract_image_slices_last_axis_witness :
    hasShape4 ([[[[5, 7]]]] : Arr4) 1 1 1 2 ∧ 1 < 2 ∧
    ∃ res, extract_image (str "in.nii") 1
        ⟨([[[[5, 7]]]] : Arr4), lps_to_ras⟩ none = some res ∧
      res.out_affine = (Nifti1Image.mk [[[[5, 7]]]] lps_to_ras).affine ∧
      hasShape3 res.out_data 1 1 1 ∧
      ∀ x y z, at3 res.out_data x y z =
        at4 (Nifti1Image.mk [[[[5, 7]]]] lps_to_ras).data x y z 1 :=
  ⟨by decide, by decide,
   extract_image_slices_last_axis (str "in.nii") 1
     ⟨([[[[5, 7]]]] : Arr4), lps_to_ras⟩ none 1 1 1 2 (by decide) (by decide)⟩

theorem extract_image_ret_out (in_file : Str) (index : ℕ)
    (image : Nifti1Image) (out_file : Option Str) (res : ExtractImageResult)
    (h : extract_image in_file index image out_file = some res) :
    res.out_file = (match out_file with
      | none => os_path_join (os_path_dirname in_file)
          (str "extract" ++ py_format_nat index ++ str "_" ++
           py_split_dot_head (os_path_basename in_file) ++ str ".nii.gz")
      | some o => o) := by
  unfold extract_image at h
  cases hnp : np_index_last image.data index with
  | none => simp [hnp] at h
  | some arr =>
      simp only [hnp] at h
      cases h
      cases out_file <;> rfl

/-- C10: when a non-`None` `out_file` is given, `extract_image` returns it
unchanged; the derived name `extract{index}_{basename}.nii.gz` in the
input's directory is used only when `out_file` is `None`. -/
theorem extract_image_out_file_passthrough (in_file : Str) (index : ℕ)
    (image : Nifti1Image) (o : Str) :
    (∀ res, extract_image in_file index image (some o) = some res →
      res.out_file = o) ∧
    (∀ res, extract_image in_file index image none = some res →
      res.out_file = os_path_join (os_path_dirname in_file)
        (str "extract" ++ py_format_nat index ++ str "_" ++
         py_split_dot_head (os_path_basename in_file) ++ str ".nii.gz")) :=
  ⟨fun res h => extract_image_ret_out in_file index image (some o) res h,
   fun res h => extract_image_ret_out in_file index image none res h⟩

/-- Witness for C10: an explicit `out_file` is returned verbatim, and the
`None` case derives `a/extract0_b.nii.gz` from input `a/b.nii`. -/
theorem extract_image_out_file_passthrough_witness :
    (ExtractImageResult.mk (str "given.nii") [[[(5 : ℤ)]]]
      lps_to_ras).out_file = str "given.nii" ∧
    (ExtractImageResult.mk (str "a/extract0_b.nii.gz") [[[(5 : ℤ)]]]
        lps_to_ras).out_file =
      os_path_join (os_path_dirname (str "a/b.nii"))
        (str "extract" ++ py_format_nat 0 ++ str "_" ++
         py_split_dot_head (os_path_basename (str "a/b.nii")) ++
         str ".nii.gz") :=
  ⟨(extract_image_out_file_passthrough (str "a/b.nii") 0
      ⟨([[[[5]]]] : Arr4), lps_to_ras⟩ (str "given.nii")).1
      (ExtractImageResult.mk (str "given.nii") [[[(5 : ℤ)]]] lps_to_ras) rfl,
   (extract_image_out_file_passthrough (str "a/b.nii") 0
      ⟨([[[[5]]]] : Arr4), lps_to_ras⟩ (str "given.nii")).2
      (ExtractImageResult.mk (str "a/extract0_b.nii.gz") [[[(5 : ℤ)]]]
        lps_to_ras) rfl⟩

/-- C4: for every missing input path, each guarded function raises a
`ValueError` before invoking any external process or doing any conversion
work — the TRK converter for its `dwi` and `trk` paths (no temporary
directory created, delegated converter never invoked), the VTK converter
for its input path, `fslreorient2std` for its input image and `apply_mask`
for its input and mask images (no `FSLWrapper` command issued). -/
theorem missing_input_raises_before_external_call (fs : List Str)
    (dwi trk_tractogram tck1 vtk_tractogram tck2 : Str)
    (polydata : PolyData) (convert_ok : Bool)
    (input_image output_image input_file output_fileroot mask_file : Str)
    (glob_fn : Str → List Str)
    (h1 : os_path_isfile fs dwi = false ∨
      os_path_isfile fs trk_tractogram = false)
    (h2 : os_path_isfile fs vtk_tractogram = false)
    (h3 : os_path_isfile fs input_image = false)
    (h4 : os_path_isfile fs input_file = false ∨
      os_path_isfile fs mask_file = false) :
    ((∃ e, (convert_connectomist_trk_fibers_to_tck fs dwi trk_tractogram
        tck1 convert_ok).ret = .error (.valueError e)) ∧
      (convert_connectomist_trk_fibers_to_tck fs dwi trk_tractogram tck1
        convert_ok).tempdir_created = false ∧
      (convert_connectomist_trk_fibers_to_tck fs dwi trk_tractogram tck1
        convert_ok).converter_invoked = false) ∧
    (∃ e, convert_mitk_vtk_fibers_to_tck fs vtk_tractogram polydata tck2 =
      .error (.valueError e)) ∧
    ((∃ e, (fslreorient2std fs input_image output_image glob_fn).ret =
        .error (.valueError e)) ∧
      (fslreorient2std fs input_image output_image glob_fn).calls = []) ∧
    ((∃ e, (apply_mask fs input_file output_fileroot mask_file glob_fn).ret =
        .error (.valueError e)) ∧
      (apply_mask fs input_file output_fileroot mask_file glob_fn).calls
        = []) := by
  refine ⟨?_, ?_, ?_, ?_⟩
  · rcases h1 with h | h
    · simp [convert_connectomist_trk_fibers_to_tck, h]
    · by_cases hdwi : os_path_isfile fs dwi = true
      · simp [convert_connectomist_trk_fibers_to_tck, hdwi, h]
      · simp [convert_connectomist_trk_fibers_to_tck,
          Bool.eq_false_iff.mpr hdwi]
  · simp [convert_mitk_vtk_fibers_to_tck, h2]
  · simp [fslreorient2std, h3]
  · rcases h4 with h | h
    · simp [apply_mask, h]
    · by_cases hin : os_path_isfile fs input_file = true
      · simp [apply_mask, hin, h]
      · simp [apply_mask, Bool.eq_false_iff.mpr hin]

/-- Witness for C4 on the empty filesystem, where every input is missing. -/
theorem missing_input_raises_before_external_call_witness :
    ((∃ e, (convert_connectomist_trk_fibers_to_tck [] (str "d") (str "t")
        (str "o1") true).ret = .error (.valueError e)) ∧
      (convert_connectomist_trk_fibers_to_tck [] (str "d") (str "t")
        (str "o1") true).tempdir_created = false ∧
      (convert_connectomist_trk_fibers_to_tck [] (str "d") (str "t")
        (str "o1") true).converter_invoked = false) ∧
    (∃ e, convert_mitk_vtk_fibers_to_tck [] (str "v") ⟨[]⟩ (str "o2") =
      .error (.valueError e)) ∧
    ((∃ e, (fslreorient2std [] (str "i1") (str "o3") (fun _ => [])).ret =
        .error (.valueError e)) ∧
      (fslreorient2std [] (str "i1") (str "o3") (fun _ => [])).calls = []) ∧
    ((∃ e, (apply_mask [] (str "i2") (str "o4") (str "m")
        (fun _ => [])).ret = .error (.valueError e)) ∧
      (apply_mask [] (str "i2") (str "o4") (str "m") (fun _ => [])).calls
        = []) :=
  missing_input_raises_before_external_call [] (str "d") (str "t") (str "o1")
    (str "v") (str "o2") ⟨[]⟩ true (str "i1") (str "o3") (str "i2")
    (str "o4") (str "m") (fun _ => []) (Or.inl rfl) rfl rfl (Or.inl rfl)

theorem mrtrix_calls_run_true (dwi b0s mean_b0 : Str) (nb_threads : ℤ)
    (run : List Str → Bool)
    (h : run (mrtrix_cmd_1 dwi b0s nb_threads) = true) :
    (mrtrix_extract_b0s_and_mean_b0 dwi b0s mean_b0 nb_threads run).calls =
      [mrtrix_cmd_1 dwi b0s nb_threads,
       mrtrix_cmd_2 b0s mean_b0 nb_threads] := by
  unfold mrtrix_extract_b0s_and_mean_b0
  by_cases h2 : run (mrtrix_cmd_2 b0s mean_b0 nb_threads) = true <;>
    simp [h, h2]

theorem mrtrix_run_false (dwi b0s mean_b0 : Str) (nb_threads : ℤ)
    (run : List Str → Bool)
    (h : run (mrtrix_cmd_1 dwi b0s nb_threads) = false) :
    (mrtrix_extract_b0s_and_mean_b0 dwi b0s mean_b0 nb_threads run).calls =
      [mrtrix_cmd_1 dwi b0s nb_threads] ∧
    (mrtrix_extract_b0s_and_mean_b0 dwi b0s mean_b0 nb_threads run).ret =
      .error (.calledProcessError (mrtrix_cmd_1 dwi b0s nb_threads)) := by
  unfold mrtrix_extract_b0s_and_mean_b0
  simp [h]

/-- C6: `mrtrix_extract_b0s_and_mean_b0` issues the b0-extraction command
and then the averaging command — exactly two invocations, in that order,
the second taking the first's output path `b0s` as its input — and when the
first command exits non-zero its failure propagates as a
`CalledProcessError` and the second is never issued. -/
theorem mrtrix_two_calls_in_order (dwi b0s mean_b0 : Str) (nb_threads : ℤ)
    (run : List Str → Bool) :
    ((mrtrix_extract_b0s_and_mean_b0 dwi b0s mean_b0 nb_threads run).calls =
        [mrtrix_cmd_1 dwi b0s nb_threads] ∨
      (mrtrix_extract_b0s_and_mean_b0 dwi b0s mean_b0 nb_threads run).calls =
        [mrtrix_cmd_1 dwi b0s nb_threads,
         mrtrix_cmd_2 b0s mean_b0 nb_threads]) ∧
    (run (mrtrix_cmd_1 dwi b0s nb_threads) = true →
      (mrtrix_extract_b0s_and_mean_b0 dwi b0s mean_b0 nb_threads run).calls =
        [mrtrix_cmd_1 dwi b0s nb_threads,
         mrtrix_cmd_2 b0s mean_b0 nb_threads]) ∧
    (run (mrtrix_cmd_1 dwi b0s nb_threads) = false →
      (mrtrix_extract_b0s_and_mean_b0 dwi b0s mean_b0 nb_threads run).calls =
        [mrtrix_cmd_1 dwi b0s nb_threads] ∧
      (mrtrix_extract_b0s_and_mean_b0 dwi b0s mean_b0 nb_threads run).ret =
        .error (.calledProcessError (mrtrix_cmd_1 dwi b0s nb_threads))) ∧
    (mrtrix_cmd_1 dwi b0s nb_threads).getD 3 [] = b0s ∧
    (mrtrix_cmd_2 b0s mean_b0 nb_threads).getD 1 [] = b0s := by
  refine ⟨?_, mrtrix_calls_run_true dwi b0s mean_b0 nb_threads run,
    mrtrix_run_false dwi b0s mean_b0 nb_threads run, rfl, rfl⟩
  by_cases h : run (mrtrix_cmd_1 dwi b0s nb_threads) = true
  · exact Or.inr (mrtrix_calls_run_true dwi b0s mean_b0 nb_threads run h)
  · exact Or.inl (mrtrix_run_false dwi b0s mean_b0 nb_threads run
      (Bool.eq_false_iff.mpr h)).1

/-- Witness for C6: with both commands succeeding the call list is exactly
`[cmd_1, cmd_2]`; with the first failing it is `[cmd_1]`; `cmd_1` writes
`b0s.nii` and `cmd_2` reads it. -/
theorem mrtrix_two_calls_in_order_witness :
    (mrtrix_extract_b0s_and_mean_b0 (str "d.nii") (str "b0s.nii")
      (str "m.nii") 1 (fun _ => true)).calls =
      [mrtrix_cmd_1 (str "d.nii") (str "b0s.nii") 1,
       mrtrix_cmd_2 (str "b0s.nii") (str "m.nii") 1] ∧
    (mrtrix_extract_b0s_and_mean_b0 (str "d.nii") (str "b0s.nii")
      (str "m.nii") 1 (fun _ => false)).calls =
      [mrtrix_cmd_1 (str "d.nii") (str "b0s.nii") 1] ∧
    (mrtrix_cmd_1 (str "d.nii") (str "b0s.nii") 1).getD 3 [] =
      str "b0s.nii" ∧
    (mrtrix_cmd_2 (str "b0s.nii") (str "m.nii") 1).getD 1 [] =
      str "b0s.nii" :=
  ⟨(mrtrix_two_calls_in_order (str "d.nii") (str "b0s.nii") (str "m.nii") 1
      (fun _ => true)).2.1 rfl,
   ((mrtrix_two_calls_in_order (str "d.nii") (str "b0s.nii") (str "m.nii") 1
      (fun _ => false)).2.2.1 rfl).1,
   (mrtrix_two_calls_in_order (str "d.nii") (str "b0s.nii") (str "m.nii") 1
      (fun _ => true)).2.2.2.1,
   (mrtrix_two_calls_in_order (str "d.nii") (str "b0s.nii") (str "m.nii") 1
      (fun _ => true)).2.2.2.2⟩

/-- C7 counterexample: with both inputs present and the delegated conversion
raising, `convert_connectomist_trk_fibers_to_tck` creates the temporary
directory but never removes it — `shutil.rmtree` is a plain statement after
the conversion, not a `finally` clause, so the claimed deletion "regardless
of success or failure" fails on the failure path. -/
theorem tempdir_not_removed_on_failure_cex :
    (convert_connectomist_trk_fibers_to_tck [str "d.nii", str "t.trk"]
      (str "d.nii") (str "t.trk") (str "o") false).tempdir_created = true ∧
    (convert_connectomist_trk_fibers_to_tck [str "d.nii", str "t.trk"]
      (str "d.nii") (str "t.trk") (str "o") false).tempdir_removed = false :=
  ⟨rfl, rfl⟩

/-- C7 amended: with both inputs present the temporary directory is always
created, and it is removed exactly when the delegated conversion succeeds;
on a conversion failure the scratch directory leaks. -/
theorem tempdir_removed_iff_success (fs : List Str)
    (dwi trk_tractogram tck_tractogram : Str) (convert_ok : Bool)
    (hdwi : os_path_isfile fs dwi = true)
    (htrk : os_path_isfile fs trk_tractogram = true) :
    (convert_connectomist_trk_fibers_to_tck fs dwi trk_tractogram
      tck_tractogram convert_ok).tempdir_created = true ∧
    ((convert_connectomist_trk_fibers_to_tck fs dwi trk_tractogram
      tck_tractogram convert_ok).tempdir_removed = true ↔
      convert_ok = true) := by
  unfold convert_connectomist_trk_fibers_to_tck
  cases convert_ok <;> simp [hdwi, htrk]

/-- Witness for C7 (amended) on a successful conversion. -/
theorem tempdir_removed_iff_success_witness :
    (convert_connectomist_trk_fibers_to_tck [str "d.nii", str "t.trk"]
      (str "d.nii") (str "t.trk") (str "o") true).tempdir_created = true ∧
    ((convert_connectomist_trk_fibers_to_tck [str "d.nii", str "t.trk"]
      (str "d.nii") (str "t.trk") (str "o") true).tempdir_removed = true ↔
      true = true) :=
  tempdir_removed_iff_success [str "d.nii", str "t.trk"] (str "d.nii")
    (str "t.trk") (str "o") true rfl rfl

/-- C8: when the external tool produces no file matching the output glob
pattern, `fslreorient2std` and `apply_mask` never return a path — when the
inputs existed, they fail with the `IndexError` raised by `[0]` on the
empty glob list. -/
theorem empty_glob_fails (fs : List Str)
    (input_image output_image input_file output_fileroot mask_file : Str)
    (glob_fn : Str → List Str)
    (hg1 : glob_fn (output_image ++ str "*") = [])
    (hg2 : glob_fn (output_fileroot ++ str ".*") = []) :
    (∀ p, (fslreorient2std fs input_image output_image glob_fn).ret ≠
      .ok p) ∧
    (os_path_isfile fs input_image = true →
      (fslreorient2std fs input_image output_image glob_fn).ret =
        .error .indexError) ∧
    (∀ p, (apply_mask fs input_file output_fileroot mask_file glob_fn).ret ≠
      .ok p) ∧
    (os_path_isfile fs input_file = true →
      os_path_isfile fs mask_file = true →
      (apply_mask fs input_file output_fileroot mask_file glob_fn).ret =
        .error .indexError) := by
  refine ⟨?_, ?_, ?_, ?_⟩
  · intro p hcon
    by_cases him : os_path_isfile fs input_image = true
    · simp [fslreorient2std, him, hg1] at hcon
    · simp [fslreorient2std, Bool.eq_false_iff.mpr him] at hcon
  · intro him
    simp [fslreorient2std, him, hg1]
  · intro p hcon
    by_cases hin : os_path_isfile fs input_file = true
    · by_cases hm : os_path_isfile fs mask_file = true
      · simp [apply_mask, hin, hm, hg2] at hcon
      · simp [apply_mask, hin, Bool.eq_false_iff.mpr hm] at hcon
    · simp [apply_mask, Bool.eq_false_iff.mpr hin] at hcon
  · intro hin hm
    simp [apply_mask, hin, hm, hg2]

/-- Witness for C8: existing inputs, glob matching nothing. -/
theorem empty_glob_fails_witness :
    (fslreorient2std [str "img.nii", str "mask.nii"] (str "img.nii")
      (str "out") (fun _ => [])).ret = .error .indexError ∧
    (apply_mask [str "img.nii", str "mask.nii"] (str "img.nii")
      (str "root") (str "mask.nii") (fun _ => [])).ret =
      .error .indexError :=
  ⟨(empty_glob_fails [str "img.nii", str "mask.nii"] (str "img.nii")
      (str "out") (str "img.nii") (str "root") (str "mask.nii")
      (fun _ => []) rfl rfl).2.1 rfl,
   (empty_glob_fails [str "img.nii", str "mask.nii"] (str "img.nii")
      (str "out") (str "img.nii") (str "root") (str "mask.nii")
      (fun _ => []) rfl rfl).2.2.2 rfl rfl⟩

/-- C9 counterexample: `mrtrix_extract_b0s_and_mean_b0` has no `return`
statement, so even when both of its subprocess calls succeed its Python
value is `None`, not a filesystem path — refuting the claim that every
function in the module returns a path. -/
theorem mrtrix_returns_none_cex :
    (mrtrix_extract_b0s_and_mean_b0 (str "dwi.nii") (str "b0s.nii")
      (str "mean.nii") 1 (fun _ => true)).ret = .ok none :=
  rfl

/-- C9 amended: every function in the module except
`mrtrix_extract_b0s_and_mean_b0` returns a filesystem path on success — the
TRK and VTK converters return the `.tck` output path, `extract_image`
returns the output file path, `fslreorient2std` and `apply_mask` return the
first glob match — while `mrtrix_extract_b0s_and_mean_b0` returns `None`
even when both of its subprocess calls succeed. -/
theorem returns_paths_except_mrtrix (fs : List Str)
    (dwi trk_tractogram tck1 vtk_tractogram tck2 : Str)
    (polydata : PolyData) (convert_ok : Bool)
    (in_file : Str) (index : ℕ) (image : Nifti1Image) (o : Str)
    (b0s mean_b0 : Str) (nb_threads : ℤ) (run : List Str → Bool)
    (input_image output_image input_file output_fileroot mask_file : Str)
    (p1 p2 : Str) (rest1 rest2 : List Str) (glob_fn : Str → List Str)
    (hdwi : os_path_isfile fs dwi = true)
    (htrk : os_path_isfile fs trk_tractogram = true)
    (hok : convert_ok = true)
    (hvtk : os_path_isfile fs vtk_tractogram = true)
    (himg : os_path_isfile fs input_image = true)
    (hin : os_path_isfile fs input_file = true)
    (hmask : os_path_isfile fs mask_file = true)
    (hg1 : glob_fn (output_image ++ str "*") = p1 :: rest1)
    (hg2 : glob_fn (output_fileroot ++ str ".*") = p2 :: rest2) :
    (convert_connectomist_trk_fibers_to_tck fs dwi trk_tractogram tck1
      convert_ok).ret = .ok (addTckExt tck1) ∧
    (∃ r, convert_mitk_vtk_fibers_to_tck fs vtk_tractogram polydata tck2 =
      .ok r ∧ r.tck_path = addTckExt tck2) ∧
    (∀ res, extract_image in_file index image (some o) = some res →
      res.out_file = o) ∧
    (fslreorient2std fs input_image output_image glob_fn).ret = .ok p1 ∧
    (apply_mask fs input_file output_fileroot mask_file glob_fn).ret =
      .ok p2 ∧
    ∀ v, (mrtrix_extract_b0s_and_mean_b0 dwi b0s mean_b0 nb_threads
      run).ret = .ok v → v = none := by
  subst hok
  refine ⟨?_, ?_, ?_, ?_, ?_, ?_⟩
  · simp [convert_connectomist_trk_fibers_to_tck, hdwi, htrk]
  · exact ⟨_, convert_mitk_vtk_eq_ok fs vtk_tractogram polydata tck2 hvtk,
      rfl⟩
  · exact fun res h => extract_image_ret_out in_file index image (some o)
      res h
  · simp [fslreorient2std, himg, hg1]
  · simp [apply_mask, hin, hmask, hg2]
  · intro v hv
    unfold mrtrix_extract_b0s_and_mean_b0 at hv
    by_cases hr1 : run (mrtrix_cmd_1 dwi b0s nb_threads) = true
    · by_cases hr2 : run (mrtrix_cmd_2 b0s mean_b0 nb_threads) = true
      · simp [hr1, hr2] at hv
        exact hv.symm
      · simp [hr1, hr2] at hv
    · simp [hr1] at hv

/-- Witness for C9 (amended) with every input present, subprocesses
succeeding and the glob matching one file. -/
theorem returns_paths_except_mrtrix_witness :
    (convert_connectomist_trk_fibers_to_tck
      [str "d.nii", str "t.trk", str "v.fib", str "img.nii", str "mask.nii"]
      (str "d.nii") (str "t.trk") (str "o1") true).ret =
      .ok (addTckExt (str "o1")) ∧
    (∃ r, convert_mitk_vtk_fibers_to_tck
      [str "d.nii", str "t.trk", str "v.fib", str "img.nii", str "mask.nii"]
      (str "v.fib") ⟨[]⟩ (str "o2") = .ok r ∧
      r.tck_path = addTckExt (str "o2")) ∧
    (fslreorient2std
      [str "d.nii", str "t.trk", str "v.fib", str "img.nii", str "mask.nii"]
      (str "img.nii") (str "o3") (fun _ => [str "g.nii"])).ret =
      .ok (str "g.nii") ∧
    (apply_mask
      [str "d.nii", str "t.trk", str "v.fib", str "img.nii", str "mask.nii"]
      (str "img.nii") (str "o4") (str "mask.nii")
      (fun _ => [str "g.nii"])).ret = .ok (str "g.nii") ∧
    (ExtractImageResult.mk (str "given.nii") [[[(5 : ℤ)]]]
      lps_to_ras).out_file = str "given.nii" :=
  let h := returns_paths_except_mrtrix
    [str "d.nii", str "t.trk", str "v.fib", str "img.nii", str "mask.nii"]
    (str "d.nii") (str "t.trk") (str "o1") (str "v.fib") (str "o2") ⟨[]⟩
    true (str "in.nii") 0 ⟨([[[[5]]]] : Arr4), lps_to_ras⟩ (str "given.nii")
    (str "b0s.nii") (str "m.nii") 1 (fun _ => true) (str "img.nii")
    (str "o3") (str "img.nii") (str "o4") (str "mask.nii") (str "g.nii")
    (str "g.nii") [] [] (fun _ => [str "g.nii"]) rfl rfl rfl rfl rfl rfl
    rfl rfl rfl
  ⟨h.1, h.2.1, h.2.2.2.1, h.2.2.2.2.1,
   h.2.2.1 (ExtractImageResult.mk (str "given.nii") [[[(5 : ℤ)]]]
     lps_to_ras) rfl⟩

end FileTools
